import Mathlib

/-!
Shallow embedding of `src/lib.rs` (crate `nuki-backend-gles`): a GLES2 render
backend translating nuki (nuklear) draw commands into GL calls.

Modelling conventions:
* `GLfloat` (`f32`) is modelled as `ℚ`.  Every concrete input evaluated in the
  theorems below keeps all intermediate values exactly representable, so the
  rational model agrees with `f32` arithmetic at those points.
* `GLint`/`GLsizei`/`GLsizeiptr` (`i32`/`isize`) are modelled as `ℤ`,
  `usize`/`GLuint` as `ℕ`; all values arising stay far from the overflow
  boundaries, so no wraparound is modelled (the Rust `as` cast from `f32` to
  `i32` truncates toward zero, modelled by `truncQ`; its saturation at
  `±2^31` is never reached by the inputs considered).
* Calls into the `gl` crate are modelled as an emitted trace of `GLOp`
  events; pure queries (`get_shaderiv`, location lookups) are answered by a
  `GLEnv` record instead of appearing in the trace.
* The GL server itself (an external collaborator of this crate) is modelled
  as a state machine `GLState`/`applyOp`, following the GLES2 specification:
  `enableVertexAttribArray`/`vertexAttribPointer` with an index not below
  `MAX_VERTEX_ATTRIBS` records `INVALID_VALUE` and otherwise ignores the
  command (no abort), which is what the backend relies on for absent
  attribute locations.
-/

namespace NukiGL

/-- GLES2 enum value of `GL_TRIANGLES`. -/
def GL_TRIANGLES : Nat := 4

/-- GLES2 enum value of `GL_UNSIGNED_SHORT`. -/
def GL_UNSIGNED_SHORT : Nat := 5123

/-- GLES2 enum value of `GL_FLOAT`. -/
def GL_FLOAT : Nat := 5126

/-- GLES2 enum value of `GL_UNSIGNED_BYTE`. -/
def GL_UNSIGNED_BYTE : Nat := 5121

/-- GLES2 enum value of `GL_FUNC_ADD`. -/
def GL_FUNC_ADD : Nat := 32774

/-- GLES2 enum value of `GL_SRC_ALPHA`. -/
def GL_SRC_ALPHA : Nat := 770

/-- GLES2 enum value of `GL_ONE_MINUS_SRC_ALPHA`. -/
def GL_ONE_MINUS_SRC_ALPHA : Nat := 771

/-- The four server capabilities the backend toggles with
`gl::enable`/`gl::disable`. -/
inductive GLCap where
  | blend
  | cull_face
  | depth_test
  | scissor_test
  deriving DecidableEq

/-- The two buffer-object binding targets used by the backend. -/
inductive BufferTarget where
  | array
  | element
  deriving DecidableEq

/-- Shader kinds (`gl::VERTEX_SHADER` / `gl::FRAGMENT_SHADER`). -/
inductive ShaderKind where
  | vertex
  | fragment
  deriving DecidableEq

/-- The attribute names the backend looks up in the linked program. -/
inductive AttrName where
  | position
  | texCoord
  | color
  deriving DecidableEq

/-- The uniform names the backend looks up in the linked program. -/
inductive UniformName where
  | texture
  | projMtx
  deriving DecidableEq

/-- `nuki::DrawVertexLayoutAttribute` (the variants used here). -/
inductive VertexAttrib where
  | position
  | texCoord
  | color
  | attributeCount
  deriving DecidableEq

/-- `nuki::DrawVertexLayoutFormat` (the variants used here). -/
inductive VertexFormat where
  | float
  | r8g8b8a8
  | count
  deriving DecidableEq

/-- One call into the `gl` crate, as recorded in the emitted trace. -/
inductive GLOp where
  | enable (c : GLCap)
  | disable (c : GLCap)
  | blendEquation (mode : Nat)
  | blendFunc (sfactor dfactor : Nat)
  | activeTexture (unit : Nat)
  | useProgram (p : Nat)
  | uniform1i (loc : ℤ) (v : ℤ)
  | uniformMatrix4fv (loc : ℤ) (m : List ℚ)
  | bindBuffer (target : BufferTarget) (b : Nat)
  | enableVertexAttribArray (idx : Nat)
  | vertexAttribPointer (idx : Nat) (size : Nat) (ty : Nat) (normalized : Bool)
      (stride : ℤ) (offset : ℤ)
  | bufferData (target : BufferTarget) (size : Nat)
  | bufferSubData (target : BufferTarget) (offset : Nat) (len : Nat)
  | bindTexture (tex : Nat)
  | scissor (box : ℤ × ℤ × ℤ × ℤ)
  | drawElements (mode : Nat) (count : Nat) (ty : Nat) (byteOffset : Nat)
  | createProgram (p : Nat)
  | createShader (k : ShaderKind) (s : Nat)
  | shaderSource (s : Nat)
  | compileShader (s : Nat)
  | attachShader (p s : Nat)
  | linkProgram (p : Nat)
  | genBuffers (a b : Nat)
  deriving DecidableEq

/-- `nuki::Rect`: a clip rectangle in logical units (fields are `f32`). -/
structure Rect where
  x : ℚ
  y : ℚ
  w : ℚ
  h : ℚ
  deriving DecidableEq

/-- `DrawOptions` (lib.rs:119-124): per-frame options.  `display_size` is
`(usize, usize)`, the factors are `(f32, f32)`, `viewport` is
`(isize, isize, isize, isize)`. -/
structure DrawOptions where
  display_size : Nat × Nat
  dpi_factor : ℚ × ℚ
  scale_factor : ℚ × ℚ
  viewport : ℤ × ℤ × ℤ × ℤ
  deriving DecidableEq

/-- `DrawOptions::new(width, height)` (lib.rs:133-140). -/
def DrawOptions.new (width height : Nat) : DrawOptions :=
  { display_size := (width, height)
    dpi_factor := (1, 1)
    scale_factor := (1, 1)
    viewport := (0, 0, (width : ℤ), (height : ℤ)) }

/-- `DrawOptions::with_dpi_factor` (lib.rs:143-146). -/
def DrawOptions.with_dpi_factor (o : DrawOptions) (x y : ℚ) : DrawOptions :=
  { o with dpi_factor := (x, y) }

/-- `DrawOptions::with_scale_factor` (lib.rs:149-152). -/
def DrawOptions.with_scale_factor (o : DrawOptions) (x y : ℚ) : DrawOptions :=
  { o with scale_factor := (x, y) }

/-- The combined x scaling factor `fx = dpi_factor.0 * scale_factor.0`,
computed identically by `Drawer::clip_rect` (lib.rs:333) and `Drawer::ortho`
(lib.rs:343). -/
def factorX (options : DrawOptions) : ℚ :=
  options.dpi_factor.1 * options.scale_factor.1

/-- The combined y scaling factor `fy = dpi_factor.1 * scale_factor.1`,
computed identically by `Drawer::clip_rect` (lib.rs:334) and `Drawer::ortho`
(lib.rs:344). -/
def factorY (options : DrawOptions) : ℚ :=
  options.dpi_factor.2 * options.scale_factor.2

/-- The Rust `as` cast from `f32` to `i32`/`isize`: truncation toward zero
(saturation is out of range for every input considered here). -/
def truncQ (q : ℚ) : ℤ :=
  if q < 0 then -(Int.floor (-q)) else Int.floor q

/-- `Drawer::clip_rect` (lib.rs:332-340): the scissor box `(x, y, w, h)`
passed to `gl::scissor`.  There is no special case of any kind: every
rectangle, the sentinel included, is scaled and y-flipped. -/
def clip_rect (rect : Rect) (options : DrawOptions) : ℤ × ℤ × ℤ × ℤ :=
  let fx := factorX options
  let fy := factorY options
  (truncQ (rect.x * fx),
   truncQ (((options.display_size.2 : ℚ) - (rect.y + rect.h)) * fy),
   truncQ (rect.w * fx),
   truncQ (rect.h * fy))

/-- `Drawer::ortho` (lib.rs:342-364): the column-major 4x4 projection
matrix, listed in source order. -/
def ortho (options : DrawOptions) : List ℚ :=
  let fx := factorX options
  let fy := factorY options
  [2 / (options.display_size.1 : ℚ) * fx, 0, 0, 0,
   0, -2 / (options.display_size.2 : ℚ) * fy, 0, 0,
   0, 0, -1, 0,
   -1, 1, 0, 1]

/-- Application of a column-major 4x4 matrix (as produced by `ortho`) to the
homogeneous point `(x, y, 0, 1)`, returning the clip-space `(x, y)` pair;
this is what the GL vertex shader computes with the uploaded matrix. -/
def clipOfMatrix (m : List ℚ) (x y : ℚ) : ℚ × ℚ :=
  (m.getD 0 0 * x + m.getD 4 0 * y + m.getD 8 0 * 0 + m.getD 12 0,
   m.getD 1 0 * x + m.getD 5 0 * y + m.getD 9 0 * 0 + m.getD 13 0)

/-- The reserved "no clip" sentinel rectangle of the UI library
(`nk_null_rect`): x = y = -8192, w = h = 16384, in logical units. -/
def nullRect : Rect :=
  { x := -8192, y := -8192, w := 16384, h := 16384 }

/-- Byte offset of `Vertex.position` in the `#[repr(C)]` struct `Vertex`
(lib.rs:109-115): the first field sits at offset 0. -/
def Vertex.positionOffset : Nat := 0

/-- Byte offset of `Vertex.uv`: `position` is `[f32; 2]`, 2 x 4 bytes, and
`uv`'s alignment (4) is already met, so no padding precedes it. -/
def Vertex.uvOffset : Nat := Vertex.positionOffset + 2 * 4

/-- Byte offset of `Vertex.col`: `uv` is `[f32; 2]`, 2 x 4 bytes, and
`col`'s alignment (1) needs no padding. -/
def Vertex.colOffset : Nat := Vertex.uvOffset + 2 * 4

/-- `std::mem::size_of::<Vertex>()`: `col` is `[u8; 4]`, 4 x 1 bytes, and the
total (20) is already a multiple of the struct alignment (4), so there is no
trailing padding under `#[repr(C)]`. -/
def Vertex.sizeOf : Nat := Vertex.colOffset + 4 * 1

/-- The GL environment answering the pure queries made during construction:
the ids handed out by `create_program`/`create_shader`/`gen_buffers` and the
location lookups on the linked program (`None` models `Err` from the `gl`
crate wrapper, i.e. a name not found). -/
structure GLEnv where
  progId : Nat
  vertShdrId : Nat
  fragShdrId : Nat
  vboId : Nat
  eboId : Nat
  attribLoc : AttrName → Option ℤ
  uniformLoc : UniformName → Option ℤ

/-- `RenderState` (lib.rs:8-25).  `vs`/`vp`/`vt`/`vc` cache the vertex
stride and the byte offsets of the three fields, as `GLsizei`. -/
structure RenderState where
  vbo : Nat
  ebo : Nat
  prog : Nat
  vert_shdr : Nat
  frag_shdr : Nat
  attrib_pos : ℤ
  attrib_uv : ℤ
  attrib_col : ℤ
  uniform_tex : ℤ
  uniform_proj : ℤ
  font_texs : List Nat
  vs : ℤ
  vp : ℤ
  vt : ℤ
  vc : ℤ
  deriving DecidableEq

/-- `RenderState::new` (lib.rs:28-84): the constructed state together with
the trace of gl calls it performs, in source order.  Location lookups use
`unwrap_or(-1)` (lib.rs:62-66); the offsetof computations (lib.rs:68-71)
yield the `#[repr(C)]` offsets.  Note the construction allocates buffer
NAMES only (`gen_buffers`); it performs no `buffer_data` call, so no device
storage is created here. -/
def RenderState.new (e : GLEnv) : RenderState × List GLOp :=
  ({ vbo := e.vboId
     ebo := e.eboId
     prog := e.progId
     vert_shdr := e.vertShdrId
     frag_shdr := e.fragShdrId
     attrib_pos := (e.attribLoc AttrName.position).getD (-1)
     attrib_uv := (e.attribLoc AttrName.texCoord).getD (-1)
     attrib_col := (e.attribLoc AttrName.color).getD (-1)
     uniform_tex := (e.uniformLoc UniformName.texture).getD (-1)
     uniform_proj := (e.uniformLoc UniformName.projMtx).getD (-1)
     font_texs := []
     vs := (Vertex.sizeOf : ℤ)
     vp := (Vertex.positionOffset : ℤ)
     vt := (Vertex.uvOffset : ℤ)
     vc := (Vertex.colOffset : ℤ) },
   [GLOp.createProgram e.progId,
    GLOp.createShader ShaderKind.vertex e.vertShdrId,
    GLOp.createShader ShaderKind.fragment e.fragShdrId,
    GLOp.shaderSource e.vertShdrId,
    GLOp.shaderSource e.fragShdrId,
    GLOp.compileShader e.vertShdrId,
    GLOp.compileShader e.fragShdrId,
    GLOp.attachShader e.progId e.vertShdrId,
    GLOp.attachShader e.progId e.fragShdrId,
    GLOp.linkProgram e.progId,
    GLOp.genBuffers e.vboId e.eboId,
    GLOp.bindTexture 0,
    GLOp.bindBuffer BufferTarget.array 0,
    GLOp.bindBuffer BufferTarget.element 0])

/-- `nuki::Buffer`, reduced to the two sizes the backend reads: the
allocated capacity (`total()`) and the currently used length (the second
component of `info()`).  `clear` truncates to empty, keeping capacity. -/
structure Buffer where
  cap : Nat
  len : Nat
  deriving DecidableEq

/-- `Buffer::new(alloc)`: a growable buffer, initially empty. -/
def Buffer.new : Buffer := { cap := 0, len := 0 }

/-- `Buffer::with_size(alloc, size)`: a fixed-size buffer of the given
capacity, initially empty. -/
def Buffer.with_size (size : Nat) : Buffer := { cap := size, len := 0 }

/-- `Buffer::clear`: truncate to empty; capacity is retained. -/
def Buffer.clear (b : Buffer) : Buffer := { b with len := 0 }

/-- `Buffer::total`: the allocated capacity in bytes. -/
def Buffer.total (b : Buffer) : Nat := b.cap

/-- `nuki::DrawNullTexture`, reduced to the texture handle it carries. -/
structure DrawNullTexture where
  texture : ℤ
  deriving DecidableEq

/-- `nuki::ConvertConfig`, reduced to the fields `Drawer::new` sets
(lib.rs:190-199). -/
structure ConvertConfig where
  global_alpha : ℚ
  line_aa : Bool
  shape_aa : Bool
  circle_segment_count : Nat
  arc_segment_count : Nat
  curve_segment_count : Nat
  null : DrawNullTexture
  vertex_layout : List (VertexAttrib × VertexFormat × Nat)
  vertex_size : Nat
  deriving DecidableEq

/-- `ConvertConfig::set_null` (called each frame at lib.rs:279). -/
def ConvertConfig.set_null (c : ConvertConfig) (n : DrawNullTexture) : ConvertConfig :=
  { c with null := n }

/-- One `nuki` draw command as yielded by `draw_command_iterator`:
element count, bound texture id (`texture().id().unwrap()`), clip rect. -/
structure DrawCommand where
  elem_count : Nat
  texture : ℤ
  clip : Rect
  deriving DecidableEq

/-- The UI context, reduced to what one `convert` call produces: the byte
lengths it leaves in the vertex/index staging buffers, the number of
recorded commands, and the command sequence later yielded by
`draw_command_iterator`. -/
structure Context where
  vlen : Nat
  elen : Nat
  clen : Nat
  cmds : List DrawCommand

/-- `Drawer` (lib.rs:155-164). -/
structure Drawer where
  cmds : Buffer
  vbuf : Buffer
  ebuf : Buffer
  config : ConvertConfig
  vertex_layout : List (VertexAttrib × VertexFormat × Nat)
  null : DrawNullTexture
  state : RenderState

/-- `Drawer::new(alloc, max_vertex_buffer, max_element_buffer)`
(lib.rs:167-209): vertex layout built from the `#[repr(C)]` offsets,
converter configuration, staging buffers (`cmds` growable, `vbuf`/`ebuf`
fixed at the given maxima), and the render state; the second component is
the construction-time gl trace (that of `RenderState::new`). -/
def Drawer.new (e : GLEnv) (max_vertex_buffer max_element_buffer : Nat) :
    Drawer × List GLOp :=
  let vertex_layout : List (VertexAttrib × VertexFormat × Nat) :=
    [(VertexAttrib.position, VertexFormat.float, Vertex.positionOffset),
     (VertexAttrib.texCoord, VertexFormat.float, Vertex.uvOffset),
     (VertexAttrib.color, VertexFormat.r8g8b8a8, Vertex.colOffset),
     (VertexAttrib.attributeCount, VertexFormat.count, 0)]
  let config : ConvertConfig :=
    { global_alpha := 1
      line_aa := true
      shape_aa := true
      circle_segment_count := 22
      arc_segment_count := 22
      curve_segment_count := 22
      null := { texture := 0 }
      vertex_layout := vertex_layout
      vertex_size := Vertex.sizeOf }
  let sn := RenderState.new e
  ({ cmds := Buffer.new
     vbuf := Buffer.with_size max_vertex_buffer
     ebuf := Buffer.with_size max_element_buffer
     config := config
     vertex_layout := vertex_layout
     null := { texture := 0 }
     state := sn.1 },
   sn.2)

/-- The per-frame staging reset (lib.rs:276-279), called `beginFrame` by the
design spec: clear the three staging buffers (truncate to empty, capacity
retained) and supply the null-texture descriptor to the converter config. -/
def Drawer.beginFrame (d : Drawer) : Drawer :=
  { d with
    cmds := d.cmds.clear
    vbuf := d.vbuf.clear
    ebuf := d.ebuf.clear
    config := d.config.set_null d.null }

/-- `ctx.convert(&mut cmds, &mut vbuf, &mut ebuf, &config)` (lib.rs:281),
seen through its effect on the staging buffers: the converter fills them
with the context's content.  The fixed-size vertex/index buffers clip at
capacity (the converter truncates on overflow); the growable command buffer
grows as needed. -/
def Drawer.convert (d : Drawer) (ctx : Context) : Drawer :=
  { d with
    cmds := { cap := max d.cmds.cap ctx.clen, len := ctx.clen }
    vbuf := { d.vbuf with len := min ctx.vlen d.vbuf.cap }
    ebuf := { d.ebuf with len := min ctx.elen d.ebuf.cap } }

/-- Cast of a `GLint` to `GLuint` (`as GLuint` in Rust): wrap modulo 2^32,
so `-1` becomes `4294967295`. -/
def toGLuint (i : ℤ) : Nat := (i % 4294967296).toNat

/-- The gl calls issued for one non-skipped command in the draw loop
(lib.rs:303-310): scissor from `clip_rect`, texture bind, and one indexed
triangle-list draw whose index-buffer offset is the current cursor `eptr`
(a `*mut u16`, so `eptr` elements = `2 * eptr` bytes). -/
def cmdOps (options : DrawOptions) (c : DrawCommand) (eptr : Nat) : List GLOp :=
  [GLOp.scissor (clip_rect c.clip options),
   GLOp.bindTexture (toGLuint c.texture),
   GLOp.drawElements GL_TRIANGLES c.elem_count GL_UNSIGNED_SHORT (2 * eptr)]

/-- The draw loop (lib.rs:295-312): commands with `elem_count() < 1` are
skipped entirely (`continue`), everything else issues `cmdOps` and advances
the cursor by its element count (`eptr.add(count)`). -/
def cmdLoop (options : DrawOptions) : List DrawCommand → Nat → List GLOp
  | [], _ => []
  | c :: rest, eptr =>
    if c.elem_count < 1 then cmdLoop options rest eptr
    else cmdOps options c eptr ++ cmdLoop options rest (eptr + c.elem_count)

/-- The value of the cursor `eptr` after the loop has processed the given
command list, starting from `e`: skipped commands leave it unchanged,
issued ones advance it by their element count. -/
def eptrAfter : List DrawCommand → Nat → Nat
  | [], e => e
  | c :: rest, e =>
    if c.elem_count < 1 then eptrAfter rest e
    else eptrAfter rest (e + c.elem_count)

/-- Total element count of a command list. -/
def sumCounts (cmds : List DrawCommand) : Nat :=
  (cmds.map DrawCommand.elem_count).sum

/-- Each command paired with the cursor value in force when the loop reaches
it, starting from `e`. -/
def annotate : List DrawCommand → Nat → List (DrawCommand × Nat)
  | [], _ => []
  | c :: rest, e => (c, e) :: annotate rest (e + c.elem_count)

/-- The contribution of one (command, cursor) pair to the loop trace: a
zero-count command contributes nothing at all, a positive one contributes
exactly its `cmdOps`. -/
def cmdStep (options : DrawOptions) (p : DrawCommand × Nat) : List GLOp :=
  if p.1.elem_count = 0 then [] else cmdOps options p.1 p.2

/-- The (byte offset, element count) span of every `drawElements` event in a
trace, in order. -/
def drawSpans (ops : List GLOp) : List (Nat × Nat) :=
  ops.filterMap fun op =>
    match op with
    | GLOp.drawElements _ c _ off => some (off, c)
    | _ => none

/-- The argument tuple of every `vertexAttribPointer` event in a trace. -/
def attribPointerCalls (ops : List GLOp) : List (Nat × Nat × Nat × Bool × ℤ × ℤ) :=
  ops.filterMap fun op =>
    match op with
    | GLOp.vertexAttribPointer i size ty norm stride off =>
        some (i, size, ty, norm, stride, off)
    | _ => none

/-- Whether an op touches device buffer storage: `bufferData` (re)allocates
a data store, `bufferSubData` overwrites part of an existing one. -/
def isBufferUpload : GLOp → Bool
  | GLOp.bufferData _ _ => true
  | GLOp.bufferSubData _ _ _ => true
  | _ => false

/-- Whether an op is a `bufferData` storage (re)allocation. -/
def isBufferData : GLOp → Bool
  | GLOp.bufferData _ _ => true
  | _ => false

/-- `Drawer::draw(ctx, options)` (lib.rs:212-318): the updated drawer and
the full gl trace in source order — raster-state setup, program/uniform
setup, buffer binds, attribute setup, per-frame `buffer_data` respecify of
both device stores at the staging buffers' total capacity (lib.rs:263-274),
staging reset + convert, `buffer_sub_data` partial upload at offset 0 of the
staged content lengths (lib.rs:292-293), the command loop, and the
raster-state restore (lib.rs:314-317). -/
def Drawer.draw (d : Drawer) (ctx : Context) (options : DrawOptions) :
    Drawer × List GLOp :=
  let pre : List GLOp :=
    [GLOp.enable GLCap.blend,
     GLOp.blendEquation GL_FUNC_ADD,
     GLOp.blendFunc GL_SRC_ALPHA GL_ONE_MINUS_SRC_ALPHA,
     GLOp.disable GLCap.cull_face,
     GLOp.disable GLCap.depth_test,
     GLOp.enable GLCap.scissor_test,
     GLOp.activeTexture 0,
     GLOp.useProgram d.state.prog,
     GLOp.uniform1i d.state.uniform_tex 0,
     GLOp.uniformMatrix4fv d.state.uniform_proj (ortho options),
     GLOp.bindBuffer BufferTarget.array d.state.vbo,
     GLOp.bindBuffer BufferTarget.element d.state.ebo,
     GLOp.enableVertexAttribArray (toGLuint d.state.attrib_pos),
     GLOp.enableVertexAttribArray (toGLuint d.state.attrib_uv),
     GLOp.enableVertexAttribArray (toGLuint d.state.attrib_col),
     GLOp.vertexAttribPointer (toGLuint d.state.attrib_pos) 2 GL_FLOAT false
       d.state.vs d.state.vp,
     GLOp.vertexAttribPointer (toGLuint d.state.attrib_uv) 2 GL_FLOAT false
       d.state.vs d.state.vt,
     GLOp.vertexAttribPointer (toGLuint d.state.attrib_col) 4 GL_UNSIGNED_BYTE true
       d.state.vs d.state.vc,
     GLOp.bufferData BufferTarget.array d.vbuf.total,
     GLOp.bufferData BufferTarget.element d.ebuf.total]
  let d2 := (d.beginFrame).convert ctx
  let upload : List GLOp :=
    [GLOp.bufferSubData BufferTarget.array 0 d2.vbuf.len,
     GLOp.bufferSubData BufferTarget.element 0 d2.ebuf.len]
  (d2,
   pre ++ upload ++ cmdLoop options ctx.cmds 0 ++
     [GLOp.disable GLCap.blend,
      GLOp.enable GLCap.cull_face,
      GLOp.enable GLCap.depth_test,
      GLOp.disable GLCap.scissor_test])

/-- The GL server state tracked by the model: the four capability flags the
backend toggles, the scissor box, current binds, and the per-index vertex
attribute table.  `maxVertexAttribs` is the device's `MAX_VERTEX_ATTRIBS`
limit (a device constant, at least 8 in GLES2). -/
structure GLState where
  blend : Bool
  cull_face : Bool
  depth_test : Bool
  scissor_test : Bool
  scissorBox : ℤ × ℤ × ℤ × ℤ
  boundTexture2D : Nat
  boundArrayBuffer : Nat
  boundElementBuffer : Nat
  activeProgram : Nat
  attribEnabled : Nat → Bool
  attribPointer : Nat → Option (Nat × Nat × Bool × ℤ × ℤ)
  maxVertexAttribs : Nat

/-- Set one capability flag. -/
def setCap (s : GLState) (c : GLCap) (b : Bool) : GLState :=
  match c with
  | GLCap.blend => { s with blend := b }
  | GLCap.cull_face => { s with cull_face := b }
  | GLCap.depth_test => { s with depth_test := b }
  | GLCap.scissor_test => { s with scissor_test := b }

/-- One step of the GL server, per the GLES2 specification.  An
`enableVertexAttribArray` or `vertexAttribPointer` whose index is not below
`MAX_VERTEX_ATTRIBS` records `INVALID_VALUE` and is otherwise ignored: the
state is unchanged and nothing aborts. -/
def applyOp (s : GLState) (op : GLOp) : GLState :=
  match op with
  | GLOp.enable c => setCap s c true
  | GLOp.disable c => setCap s c false
  | GLOp.scissor box => { s with scissorBox := box }
  | GLOp.bindTexture t => { s with boundTexture2D := t }
  | GLOp.bindBuffer BufferTarget.array b => { s with boundArrayBuffer := b }
  | GLOp.bindBuffer BufferTarget.element b => { s with boundElementBuffer := b }
  | GLOp.useProgram p => { s with activeProgram := p }
  | GLOp.enableVertexAttribArray i =>
    if i < s.maxVertexAttribs then
      { s with attribEnabled := fun j => if j = i then true else s.attribEnabled j }
    else s
  | GLOp.vertexAttribPointer i size ty norm stride off =>
    if i < s.maxVertexAttribs then
      { s with attribPointer := fun j =>
          if j = i then some (size, ty, norm, stride, off) else s.attribPointer j }
    else s
  | _ => s

/-- Run a trace through the GL server. -/
def applyOps (ops : List GLOp) (s : GLState) : GLState :=
  ops.foldl applyOp s

/-- A concrete GL environment in which every location lookup succeeds. -/
def envA : GLEnv :=
  { progId := 1, vertShdrId := 2, fragShdrId := 3, vboId := 4, eboId := 5
    attribLoc := fun a =>
      match a with
      | AttrName.position => some 0
      | AttrName.texCoord => some 1
      | AttrName.color => some 2
    uniformLoc := fun u =>
      match u with
      | UniformName.texture => some 0
      | UniformName.projMtx => some 1 }

/-- A concrete GL environment in which no attribute or uniform name is found
in the linked program. -/
def envNone : GLEnv :=
  { progId := 1, vertShdrId := 2, fragShdrId := 3, vboId := 4, eboId := 5
    attribLoc := fun _ => none
    uniformLoc := fun _ => none }

/-- A concrete GL server state (device limit `MAX_VERTEX_ATTRIBS = 8`, the
GLES2 minimum). -/
def stateA : GLState :=
  { blend := false, cull_face := false, depth_test := false, scissor_test := false
    scissorBox := (0, 0, 0, 0)
    boundTexture2D := 0, boundArrayBuffer := 0, boundElementBuffer := 0
    activeProgram := 0
    attribEnabled := fun _ => false
    attribPointer := fun _ => none
    maxVertexAttribs := 8 }

/-- A concrete clip rectangle. -/
def rectA : Rect := { x := 0, y := 0, w := 640, h := 480 }

/-- A concrete command with element count 0. -/
def cmdZero : DrawCommand := { elem_count := 0, texture := 7, clip := rectA }

/-- A concrete command with element count 6. -/
def cmdSix : DrawCommand := { elem_count := 6, texture := 9, clip := rectA }

/-- A concrete context: 40 staged vertex bytes, 12 staged index bytes, and
the two-command list of the command-skipping property. -/
def ctxA : Context := { vlen := 40, elen := 12, clen := 2, cmds := [cmdZero, cmdSix] }

/-! ## Theorems -/

/-- Truncation toward zero is the identity on integer-valued rationals. -/
theorem truncQ_intCast (n : ℤ) : truncQ (n : ℚ) = n := by
  unfold truncQ
  by_cases h : (n : ℚ) < 0
  · rw [if_pos h]
    have h2 : (-(n : ℚ)) = ((-n : ℤ) : ℚ) := by push_cast; ring
    rw [h2, Int.floor_intCast, neg_neg]
  · rw [if_neg h, Int.floor_intCast]

/-- If a rational equals an integer, truncation toward zero returns it. -/
theorem truncQ_eq_of_cast (q : ℚ) (n : ℤ) (h : q = (n : ℚ)) : truncQ q = n := by
  rw [h, truncQ_intCast]

/-- Unfolding of `sumCounts` on a cons cell. -/
theorem sumCounts_cons (c : DrawCommand) (l : List DrawCommand) :
    sumCounts (c :: l) = c.elem_count + sumCounts l := by
  simp [sumCounts]

/-- The cursor after the loop equals the start plus the total element count
of the list: skipped commands are exactly the zero-count ones, so they
contribute zero. -/
theorem eptrAfter_eq (l : List DrawCommand) (e : Nat) :
    eptrAfter l e = e + sumCounts l := by
  induction l generalizing e with
  | nil => simp [eptrAfter, sumCounts]
  | cons c rest ih =>
    by_cases h : c.elem_count < 1
    · have hc : c.elem_count = 0 := by omega
      simp [eptrAfter, h, ih, sumCounts_cons, hc]
    · simp only [eptrAfter, if_neg h, ih, sumCounts_cons]
      omega

/-- The loop trace of a concatenation splits at the cursor value reached
after the first part. -/
theorem cmdLoop_append (options : DrawOptions) (l1 l2 : List DrawCommand) (e : Nat) :
    cmdLoop options (l1 ++ l2) e =
      cmdLoop options l1 e ++ cmdLoop options l2 (eptrAfter l1 e) := by
  induction l1 generalizing e with
  | nil => simp [cmdLoop, eptrAfter]
  | cons c rest ih =>
    by_cases h : c.elem_count < 1
    · simp [cmdLoop, eptrAfter, h, ih]
    · simp [cmdLoop, eptrAfter, h, ih]

/-- The loop trace is the concatenation, in order, of each annotated
command's step: nothing for zero-count commands, `cmdOps` otherwise. -/
theorem cmdLoop_eq_flatMap (options : DrawOptions) (l : List DrawCommand) (e : Nat) :
    cmdLoop options l e = (annotate l e).flatMap (cmdStep options) := by
  induction l generalizing e with
  | nil => simp [cmdLoop, annotate]
  | cons c rest ih =>
    by_cases h : c.elem_count < 1
    · have hc : c.elem_count = 0 := by omega
      simp [cmdLoop, annotate, cmdStep, h, hc, ih]
    · have hc : ¬c.elem_count = 0 := by omega
      simp [cmdLoop, annotate, cmdStep, h, hc, ih]

/-- Draw spans of a concatenated trace. -/
theorem drawSpans_append (a b : List GLOp) :
    drawSpans (a ++ b) = drawSpans a ++ drawSpans b := by
  simp [drawSpans, List.filterMap_append]

/-- The span of one command's ops: one draw of its count at byte offset
`2 * eptr`. -/
theorem drawSpans_cmdOps (options : DrawOptions) (c : DrawCommand) (e : Nat) :
    drawSpans (cmdOps options c e) = [(2 * e, c.elem_count)] := by
  simp [drawSpans, cmdOps]

/-- Every draw span in a loop trace starts at or after twice the starting
cursor. -/
theorem drawSpans_cmdLoop_lb (options : DrawOptions) (l : List DrawCommand) (e : Nat) :
    ∀ p ∈ drawSpans (cmdLoop options l e), 2 * e ≤ p.1 := by
  induction l generalizing e with
  | nil => simp [cmdLoop, drawSpans]
  | cons c rest ih =>
    by_cases h : c.elem_count < 1
    · simpa only [cmdLoop, if_pos h] using ih e
    · intro p hp
      rw [cmdLoop, if_neg h, drawSpans_append, drawSpans_cmdOps] at hp
      rcases List.mem_append.mp hp with h1 | h2
      · rw [List.mem_singleton.mp h1]
      · have := ih (e + c.elem_count) p h2
        omega

/-- The draw spans of a loop trace are pairwise non-overlapping: each span's
byte range ends at or before the next one starts. -/
theorem drawSpans_cmdLoop_pairwise (options : DrawOptions) (l : List DrawCommand) (e : Nat) :
    (drawSpans (cmdLoop options l e)).Pairwise (fun a b => a.1 + 2 * a.2 ≤ b.1) := by
  induction l generalizing e with
  | nil => simp [cmdLoop, drawSpans]
  | cons c rest ih =>
    by_cases h : c.elem_count < 1
    · simpa only [cmdLoop, if_pos h] using ih e
    · rw [cmdLoop, if_neg h, drawSpans_append, drawSpans_cmdOps, List.singleton_append]
      refine List.Pairwise.cons ?_ (ih (e + c.elem_count))
      intro p hp
      have := drawSpans_cmdLoop_lb options rest (e + c.elem_count) p hp
      omega

/-- The loop trace never touches device buffer storage. -/
theorem cmdLoop_filter_isBufferUpload (options : DrawOptions) (l : List DrawCommand) (e : Nat) :
    (cmdLoop options l e).filter isBufferUpload = [] := by
  induction l generalizing e with
  | nil => simp [cmdLoop]
  | cons c rest ih =>
    by_cases h : c.elem_count < 1
    · simpa only [cmdLoop, if_pos h] using ih e
    · rw [cmdLoop, if_neg h, List.filter_append, ih]
      simp [cmdOps, isBufferUpload]

/-- The loop trace contains no `vertexAttribPointer` call. -/
theorem cmdLoop_attribPointerCalls (options : DrawOptions) (l : List DrawCommand) (e : Nat) :
    attribPointerCalls (cmdLoop options l e) = [] := by
  induction l generalizing e with
  | nil => simp [cmdLoop, attribPointerCalls]
  | cons c rest ih =>
    by_cases h : c.elem_count < 1
    · simpa only [cmdLoop, if_pos h] using ih e
    · rw [cmdLoop, if_neg h]
      unfold attribPointerCalls at ih ⊢
      rw [List.filterMap_append, ih]
      simp [cmdOps]

/-- C3: in one `draw`, the index-buffer read cursor before command `k`
equals the sum of the element counts of commands `1..k-1` (skipped zero-count
commands advance it by zero), the loop trace splits accordingly at every
`k`, and no two issued draw calls read overlapping index-buffer byte
ranges. -/
theorem c3_index_cursor_advance (options : DrawOptions) (cmds : List DrawCommand) :
    (∀ k : Nat,
      eptrAfter (cmds.take k) 0 = sumCounts (cmds.take k) ∧
      cmdLoop options cmds 0 =
        cmdLoop options (cmds.take k) 0 ++
          cmdLoop options (cmds.drop k) (sumCounts (cmds.take k))) ∧
    (drawSpans (cmdLoop options cmds 0)).Pairwise (fun a b => a.1 + 2 * a.2 ≤ b.1) := by
  constructor
  · intro k
    have h1 : eptrAfter (cmds.take k) 0 = sumCounts (cmds.take k) := by
      rw [eptrAfter_eq]; omega
    refine ⟨h1, ?_⟩
    conv_lhs => rw [← List.take_append_drop k cmds]
    rw [cmdLoop_append, h1]
  · exact drawSpans_cmdLoop_pairwise options cmds 0

/-- C4: a zero-count command is skipped entirely — it contributes no gl call
at all (no scissor, no texture bind, no draw) — and this is the only
filtering: every positive-count command contributes exactly its three ops,
one indexed triangle-list draw among them, in converter order.  Concretely,
the list `[count 0, count 6]` produces exactly the ops of the second
command: a single draw call of count 6. -/
theorem c4_command_skipping (options : DrawOptions) :
    (∀ (cmds : List DrawCommand) (e : Nat),
      cmdLoop options cmds e = (annotate cmds e).flatMap (cmdStep options)) ∧
    cmdLoop options [cmdZero, cmdSix] 0 = cmdOps options cmdSix 0 ∧
    drawSpans (cmdLoop options [cmdZero, cmdSix] 0) = [(0, 6)] := by
  refine ⟨fun cmds e => cmdLoop_eq_flatMap options cmds e, ?_, ?_⟩
  · simp [cmdLoop, cmdZero, cmdSix]
  · simp [cmdLoop, cmdZero, cmdSix, drawSpans, cmdOps]

/-- C5: for display size (800,600), dpi (1,1), scale (1,1), the projection
matrix returned by `ortho` maps logical (0,0) to clip (-1,1) and logical
(800,600) to clip (1,-1) exactly. -/
theorem c5_projection_correctness :
    clipOfMatrix (ortho (DrawOptions.new 800 600)) 0 0 = (-1, 1) ∧
    clipOfMatrix (ortho (DrawOptions.new 800 600)) 800 600 = (1, -1) := by
  constructor <;>
    (unfold clipOfMatrix ortho DrawOptions.new factorX factorY; norm_num)

/-- C9: the per-frame staging reset is idempotent — performed twice in a row
with no intervening convert it equals performing it once — and it leaves the
command, vertex and index staging buffers empty with their capacities
unchanged (no reallocation). -/
theorem c9_idempotent_frame_reset (d : Drawer) :
    d.beginFrame.beginFrame = d.beginFrame ∧
    d.beginFrame.cmds.len = 0 ∧
    d.beginFrame.vbuf.len = 0 ∧
    d.beginFrame.ebuf.len = 0 ∧
    d.beginFrame.cmds.cap = d.cmds.cap ∧
    d.beginFrame.vbuf.cap = d.vbuf.cap ∧
    d.beginFrame.ebuf.cap = d.ebuf.cap := by
  exact ⟨rfl, rfl, rfl, rfl, rfl, rfl, rfl⟩

/-- C10: `DrawOptions::new(width, height)` defaults the dpi and scale
factors to (1,1) and the viewport to (0,0,width,height); with these defaults
the combined scaling factor shared by `ortho` and `clip_rect` is exactly 1
on each axis, and the factors change only when explicitly overridden by
`with_dpi_factor` / `with_scale_factor`. -/
theorem c10_default_options (w h : Nat) (a b : ℚ) :
    (DrawOptions.new w h).dpi_factor = (1, 1) ∧
    (DrawOptions.new w h).scale_factor = (1, 1) ∧
    (DrawOptions.new w h).viewport = (0, 0, (w : ℤ), (h : ℤ)) ∧
    factorX (DrawOptions.new w h) = 1 ∧
    factorY (DrawOptions.new w h) = 1 ∧
    ((DrawOptions.new w h).with_dpi_factor a b).dpi_factor = (a, b) ∧
    ((DrawOptions.new w h).with_scale_factor a b).scale_factor = (a, b) := by
    refine ⟨rfl, rfl, rfl, ?_, ?_, rfl, rfl⟩ <;>
      norm_num [factorX, factorY, DrawOptions.new]

/-- C1 counterexample: `Drawer::clip_rect` has no sentinel special case, so
for display (800,600) with dpi and scale factors (1,1) the reserved "no
clip" rectangle is scaled like any other rectangle and yields the scissor
box (-8192, -7592, 16384, 16384), not the full viewport (0, 0, 800, 600)
the claim requires. -/
theorem c1_clip_sentinel_counterexample :
    clip_rect nullRect (DrawOptions.new 800 600) = (-8192, -7592, 16384, 16384) ∧
    clip_rect nullRect (DrawOptions.new 800 600) ≠ (0, 0, 800, 600) := by
  have h : clip_rect nullRect (DrawOptions.new 800 600) = (-8192, -7592, 16384, 16384) := by
    unfold clip_rect nullRect DrawOptions.new factorX factorY
    refine Prod.ext ?_ (Prod.ext ?_ (Prod.ext ?_ ?_)) <;>
      (apply truncQ_eq_of_cast; push_cast; norm_num)
  exact ⟨h, by rw [h]; decide⟩

/-- C1 amended: the sentinel rectangle is not special-cased; `clip_rect`
scales it uniformly like any rectangle.  For every display size (W,H) under
the default factors it maps to (-8192, H - 8192, 16384, 16384), which is
never the full viewport (0, 0, W, H). -/
theorem c1_clip_sentinel_amended (W H : Nat) :
    clip_rect nullRect (DrawOptions.new W H) = (-8192, (H : ℤ) - 8192, 16384, 16384) ∧
    clip_rect nullRect (DrawOptions.new W H) ≠ (0, 0, (W : ℤ), (H : ℤ)) := by
  have h : clip_rect nullRect (DrawOptions.new W H) =
      (-8192, (H : ℤ) - 8192, 16384, 16384) := by
    unfold clip_rect nullRect DrawOptions.new factorX factorY
    refine Prod.ext ?_ (Prod.ext ?_ (Prod.ext ?_ ?_)) <;>
      (apply truncQ_eq_of_cast; push_cast; ring)
  refine ⟨h, ?_⟩
  rw [h]
  intro hcontra
  have h1 : (-8192 : ℤ) = 0 := congrArg Prod.fst hcontra
  omega

/-- C2 counterexample: at a concrete environment and frame, the
construction trace of `RenderState::new` contains no `buffer_data` call —
no device storage is allocated at construction, only buffer names are
generated — while one `draw` call issues two `buffer_data` storage
(re)specifications, so the device stores are recreated mid-run on every
frame, contrary to the claim. -/
theorem c2_buffer_alloc_counterexample :
    ((RenderState.new envA).2.filter isBufferData = []) ∧
    (((Drawer.new envA 1024 512).1.draw ctxA (DrawOptions.new 800 600)).2.countP
        isBufferData = 2) := by
  constructor
  · rfl
  · rfl

/-- C2 amended: construction generates buffer names only (its trace contains
no storage operation); each `draw` call re-specifies both device stores via
`buffer_data` sized to the staging buffers' total capacities — the
configured maxima — and then partially overwrites them at offset 0 with the
actual staged content lengths, which never exceed those capacities. -/
theorem c2_buffer_alloc_amended (e : GLEnv) (maxV maxE : Nat) (ctx : Context)
    (options : DrawOptions) :
    ((RenderState.new e).2.filter isBufferUpload = []) ∧
    (((Drawer.new e maxV maxE).1.draw ctx options).2.filter isBufferUpload =
      [GLOp.bufferData BufferTarget.array maxV,
       GLOp.bufferData BufferTarget.element maxE,
       GLOp.bufferSubData BufferTarget.array 0 (min ctx.vlen maxV),
       GLOp.bufferSubData BufferTarget.element 0 (min ctx.elen maxE)]) ∧
    min ctx.vlen maxV ≤ maxV ∧ min ctx.elen maxE ≤ maxE := by
  refine ⟨by rfl, ?_, Nat.min_le_right _ _, Nat.min_le_right _ _⟩
  unfold Drawer.draw Drawer.new Drawer.beginFrame Drawer.convert
  simp only [List.filter_append, cmdLoop_filter_isBufferUpload]
  simp [isBufferUpload, Buffer.total, Buffer.with_size, Buffer.clear]

/-- C6: the cached byte offsets of the `#[repr(C)]` `Vertex` satisfy
`0 ≤ offset(position) < offset(texcoord) < offset(color) < stride` with the
stride equal to `size_of::<Vertex>()`, and those very offsets and stride are
the ones placed in the vertex layout handed to the converter, in the
converter config's vertex size, and in every `vertex_attrib_pointer` binding
issued by `draw`. -/
theorem c6_vertex_layout_invariant (e : GLEnv) (maxV maxE : Nat) (ctx : Context)
    (options : DrawOptions) :
    (0 : ℤ) ≤ (RenderState.new e).1.vp ∧
    (RenderState.new e).1.vp < (RenderState.new e).1.vt ∧
    (RenderState.new e).1.vt < (RenderState.new e).1.vc ∧
    (RenderState.new e).1.vc < (RenderState.new e).1.vs ∧
    (RenderState.new e).1.vs = (Vertex.sizeOf : ℤ) ∧
    (Drawer.new e maxV maxE).1.vertex_layout =
      [(VertexAttrib.position, VertexFormat.float, Vertex.positionOffset),
       (VertexAttrib.texCoord, VertexFormat.float, Vertex.uvOffset),
       (VertexAttrib.color, VertexFormat.r8g8b8a8, Vertex.colOffset),
       (VertexAttrib.attributeCount, VertexFormat.count, 0)] ∧
    (Drawer.new e maxV maxE).1.config.vertex_layout =
      (Drawer.new e maxV maxE).1.vertex_layout ∧
    (Drawer.new e maxV maxE).1.config.vertex_size = Vertex.sizeOf ∧
    attribPointerCalls (((Drawer.new e maxV maxE).1.draw ctx options).2) =
      [(toGLuint (RenderState.new e).1.attrib_pos, 2, GL_FLOAT, false,
          (Vertex.sizeOf : ℤ), (Vertex.positionOffset : ℤ)),
       (toGLuint (RenderState.new e).1.attrib_uv, 2, GL_FLOAT, false,
          (Vertex.sizeOf : ℤ), (Vertex.uvOffset : ℤ)),
       (toGLuint (RenderState.new e).1.attrib_col, 4, GL_UNSIGNED_BYTE, true,
          (Vertex.sizeOf : ℤ), (Vertex.colOffset : ℤ))] := by
  have hvp : (RenderState.new e).1.vp = (0 : ℤ) := rfl
  have hvt : (RenderState.new e).1.vt = (8 : ℤ) := rfl
  have hvc : (RenderState.new e).1.vc = (16 : ℤ) := rfl
  have hvs : (RenderState.new e).1.vs = (20 : ℤ) := rfl
  refine ⟨by rw [hvp], by rw [hvp, hvt]; decide, by rw [hvt, hvc]; decide,
    by rw [hvc, hvs]; decide, rfl, rfl, rfl, rfl, ?_⟩
  unfold Drawer.draw
  unfold attribPointerCalls
  simp only [List.filterMap_append]
  rw [show ∀ l e, (cmdLoop options l e).filterMap _ = attribPointerCalls (cmdLoop options l e)
      from fun _ _ => rfl]
  simp [cmdLoop_attribPointerCalls, Drawer.new, RenderState.new]

/-- C7: after every `draw` returns, for any drawer, context, options and any
initial GL server state, the raster state has been restored to the baseline:
blending disabled, face culling enabled, depth testing enabled, scissor
testing disabled. -/
theorem c7_raster_state_restored (d : Drawer) (ctx : Context) (options : DrawOptions)
    (s : GLState) :
    (applyOps (d.draw ctx options).2 s).blend = false ∧
    (applyOps (d.draw ctx options).2 s).cull_face = true ∧
    (applyOps (d.draw ctx options).2 s).depth_test = true ∧
    (applyOps (d.draw ctx options).2 s).scissor_test = false := by
  unfold Drawer.draw applyOps
  simp only [List.foldl_append, List.foldl_cons, List.foldl_nil]
  exact ⟨rfl, rfl, rfl, rfl⟩

/-- C8: every attribute or uniform name not found in the linked program
resolves to the sentinel location -1 (`unwrap_or(-1)`), and enabling or
binding the attribute at that absent location during `draw` — the cast
`-1 as GLuint` yields 4294967295, at or above any device
`MAX_VERTEX_ATTRIBS` — is ignored by the GL server: the state is unchanged
and nothing fails, leaving the attribute silently disabled. -/
theorem c8_absent_location_noop (e : GLEnv) (s : GLState)
    (h1 : e.attribLoc AttrName.position = none)
    (h2 : e.attribLoc AttrName.texCoord = none)
    (h3 : e.attribLoc AttrName.color = none)
    (h4 : e.uniformLoc UniformName.texture = none)
    (h5 : e.uniformLoc UniformName.projMtx = none)
    (hs : s.maxVertexAttribs ≤ 4294967295) :
    (RenderState.new e).1.attrib_pos = -1 ∧
    (RenderState.new e).1.attrib_uv = -1 ∧
    (RenderState.new e).1.attrib_col = -1 ∧
    (RenderState.new e).1.uniform_tex = -1 ∧
    (RenderState.new e).1.uniform_proj = -1 ∧
    applyOp s (GLOp.enableVertexAttribArray
      (toGLuint (RenderState.new e).1.attrib_pos)) = s ∧
    applyOp s (GLOp.vertexAttribPointer
      (toGLuint (RenderState.new e).1.attrib_pos) 2 GL_FLOAT false
      (RenderState.new e).1.vs (RenderState.new e).1.vp) = s := by
  have hp : (RenderState.new e).1.attrib_pos = -1 := by
    simp [RenderState.new, h1]
  have ht : toGLuint (-1) = 4294967295 := by decide
  have hlt : ¬(4294967295 < s.maxVertexAttribs) := by omega
  refine ⟨hp, by simp [RenderState.new, h2], by simp [RenderState.new, h3],
    by simp [RenderState.new, h4], by simp [RenderState.new, h5], ?_, ?_⟩
  · rw [hp, ht]
    simp only [applyOp]
    rw [if_neg hlt]
  · rw [hp, ht]
    simp only [applyOp]
    rw [if_neg hlt]

/-- Witness for C8: at the concrete environment in which no name resolves
and the concrete GL state with the GLES2 minimum device limit, the sentinel
locations and the silent no-op hold. -/
theorem c8_absent_location_noop_witness :
    (RenderState.new envNone).1.attrib_pos = -1 ∧
    (RenderState.new envNone).1.attrib_uv = -1 ∧
    (RenderState.new envNone).1.attrib_col = -1 ∧
    (RenderState.new envNone).1.uniform_tex = -1 ∧
    (RenderState.new envNone).1.uniform_proj = -1 ∧
    applyOp stateA (GLOp.enableVertexAttribArray
      (toGLuint (RenderState.new envNone).1.attrib_pos)) = stateA ∧
    applyOp stateA (GLOp.vertexAttribPointer
      (toGLuint (RenderState.new envNone).1.attrib_pos) 2 GL_FLOAT false
      (RenderState.new envNone).1.vs (RenderState.new envNone).1.vp) = stateA :=
  c8_absent_location_noop envNone stateA rfl rfl rfl rfl rfl (by decide)

end NukiGL
